import Mathlib

/-!
Shallow embedding of the SoulSmith story-processing module
(src/story_processing.py) and verification of the specification claims.

Modelling conventions:
* Python strings are Lean `String`s; character-level operations work on
  `String.toList`.
* Python numbers are exact: counts are `Nat`, and every Python float
  computation (true division, `round(x, d)`) is modelled over `ℚ`.
  `round(x, 1)` / `round(x, 2)` become `roundTo 1` / `roundTo 2`; Python
  rounds ties of exact binary floats to even while `roundTo` rounds them
  half-up, and no claim below depends on tie behaviour.
* A transcript is a dict that may lack the `messages` key (`.absent`,
  which `transcript.get("messages", [])` turns into `[]`), may bind it to
  a non-sequence value such as an int or None (`.notSeq`, which raises
  TypeError at the first `for m in messages` iteration), or binds it to a
  list of turns.  A turn has an optional `role` (`m.get("role")` yields
  None when absent) and an optional `text` (`m["text"]` raises KeyError
  when absent).
* Fallible code is embedded in `Except PyErr`.
-/

namespace SoulSmith

/-- Python dynamic errors that the module can raise. -/
inductive PyErr where
  | keyError
  | typeError
deriving DecidableEq

/-- One dialogue turn: `role` models `m.get("role")` (None when the key is
absent) and `text` models the `"text"` key (`none` when absent, so that
`m["text"]` raises KeyError). -/
structure Turn where
  role : Option String
  text : Option String
deriving DecidableEq

/-- The value bound to the `"messages"` key of a transcript dict. -/
inductive Messages where
  | absent
  | notSeq
  | seq (turns : List Turn)
deriving DecidableEq

/-- A transcript dict, reduced to the only key the module reads. -/
structure Transcript where
  messages : Messages
deriving DecidableEq

/-- Models `transcript.get("messages", [])` followed by iterating the
result in a list comprehension: an absent key yields `[]`, a non-sequence
value raises TypeError at the first iteration. -/
def getMessages (t : Transcript) : Except PyErr (List Turn) :=
  match t.messages with
  | .absent => .ok []
  | .notSeq => .error .typeError
  | .seq turns => .ok turns

/-- Models the subscript `m["text"]`: KeyError when the key is absent. -/
def getText (m : Turn) : Except PyErr String :=
  match m.text with
  | some s => .ok s
  | none => .error .keyError

/-- Left-to-right collection of `m["text"]` over a list of turns,
stopping at the first KeyError, as a Python list comprehension does. -/
def collectTexts : List Turn → Except PyErr (List String)
  | [] => .ok []
  | m :: ms => do
    let t ← getText m
    let ts ← collectTexts ms
    pure (t :: ts)

/-- Models the comprehension `[m["text"] for m in messages if
m.get("role") == "user"]` shared by `extract_user_text`,
`build_story_prompt`, `calculate_engagement_metrics` and
`calculate_comprehension_metrics`: the filter runs first, then the
subscript, so only user turns can raise KeyError. -/
def userTurnTexts (msgs : List Turn) : Except PyErr (List String) :=
  collectTexts (msgs.filter (fun m => m.role == some "user"))

/- ---------------------------------------------------------------------
Character and token level primitives (Python `str` methods).
--------------------------------------------------------------------- -/

/-- The characters Python `str.split()` and `str.strip()` treat as
whitespace, by code point: space (32), tab (9), newline (10), carriage
return (13), vertical tab (11) and form feed (12). -/
def pyIsSpace (c : Char) : Bool :=
  c.toNat == 32 || c.toNat == 9 || c.toNat == 10 ||
    c.toNat == 13 || c.toNat == 11 || c.toNat == 12

/-- Helper for `pySplit`: accumulates the current token (reversed) while
scanning. -/
def pySplitAux : List Char → List Char → List (List Char)
  | [], acc => if acc.isEmpty then [] else [acc.reverse]
  | c :: cs, acc =>
    if pyIsSpace c then
      if acc.isEmpty then pySplitAux cs [] else acc.reverse :: pySplitAux cs []
    else
      pySplitAux cs (c :: acc)

/-- Python `text.split()` (no separator): split on runs of whitespace,
discarding empty pieces. -/
def pySplit (text : String) : List (List Char) :=
  pySplitAux text.toList []

/-- Python `str.lower()`, character by character. -/
def pyLower (l : List Char) : List Char :=
  l.map Char.toLower

/-- Python `str.strip()`: remove leading and trailing whitespace. -/
def pyStrip (l : List Char) : List Char :=
  ((l.dropWhile pyIsSpace).reverse.dropWhile pyIsSpace).reverse

/-- A Python `\w` word character (ASCII range, as exercised here). -/
def isWordChar (c : Char) : Bool :=
  c.isAlphanum || c == '_'

/-- `needle` matches at the very start of `hay`. -/
def leadMatch : List Char → List Char → Bool
  | [], _ => true
  | _ :: _, [] => false
  | c :: cs, h :: hs => c == h && leadMatch cs hs

/-- Python substring containment `needle in hay`, on character lists. -/
def occursIn (needle : List Char) : List Char → Bool
  | [] => leadMatch needle []
  | h :: t => leadMatch needle (h :: t) || occursIn needle t

/-- Python `round(q, d)` over exact rationals (see header note on ties). -/
def roundTo (d : ℕ) (q : ℚ) : ℚ :=
  (round (q * 10 ^ d) : ℤ) / 10 ^ d

/- ---------------------------------------------------------------------
The story-processing functions, one per Python function.
--------------------------------------------------------------------- -/

/-- First half of the f-string template of `build_story_prompt`, up to the
interpolated `child_responses`. -/
def storyPromptPre : String :=
  "You are a warm, engaging storyteller for children aged 4-8.\n" ++
  "You are about to tell an interactive story based on what the child shared with you.\n" ++
  "\nHere is what the child told you during the intro:\n---\n"

/-- Second half of the f-string template of `build_story_prompt`, after the
interpolated `child_responses`.  (The source template contains one
apostrophe, written here via its code point to keep the file ASCII-plain.) -/
def storyPromptPost : String :=
  "\n---\n\nSTORYTELLING GUIDELINES:\n" ++
  "1. Create a personalized adventure incorporating the child" ++
  (Char.ofNat 39).toString ++ "s interests and preferences\n" ++
  "2. Use simple, age-appropriate language\n" ++
  "3. Pause occasionally to ask the child questions like \"What do you think happens next?\"\n" ++
  "4. Include the child as the hero of the story\n" ++
  "5. Keep the story positive, magical, and encouraging\n" ++
  "6. The story should last about 3-5 minutes when told aloud\n" ++
  "7. End with a happy, satisfying conclusion\n" ++
  "\nBegin the story with \"Once upon a time...\" and make it magical!\n"

/-- `build_story_prompt(intro_transcript)`: join the child utterances with
newlines and substitute them into the fixed template. -/
def build_story_prompt (intro_transcript : Transcript) : Except PyErr String := do
  let messages ← getMessages intro_transcript
  let user_messages ← userTurnTexts messages
  let child_responses := String.intercalate "\n" user_messages
  pure (storyPromptPre ++ child_responses ++ storyPromptPost)

/-- `extract_user_text(transcript)`: all child text, space-joined. -/
def extract_user_text (transcript : Transcript) : Except PyErr String := do
  let messages ← getMessages transcript
  let user_texts ← userTurnTexts messages
  pure (String.intercalate " " user_texts)

/-- `count_words(text)`: `len(text.split())`. -/
def count_words (text : String) : ℕ :=
  (pySplit text).length

/-- `count_unique_words(text)`: lower-case, split, strip non-word
characters from each token, drop empties, count the set. -/
def count_unique_words (text : String) : ℕ :=
  let words := pySplitAux (pyLower text.toList) []
  let stripped := words.map (fun w => w.filter isWordChar)
  let nonempty := stripped.filter (fun w => !w.isEmpty)
  nonempty.dedup.length

/-- Output record of `calculate_vocabulary_metrics`. -/
structure VocabMetrics where
  total_words : ℕ
  unique_words : ℕ
  diversity_ratio : ℚ
  avg_word_length : ℚ
deriving DecidableEq

/-- `calculate_vocabulary_metrics(text)`. -/
def calculate_vocabulary_metrics (text : String) : VocabMetrics :=
  let total_words := count_words text
  let unique_words := count_unique_words text
  let diversity_ratio : ℚ :=
    if total_words > 0 then (unique_words : ℚ) / (total_words : ℚ) else 0
  let words := pySplit text
  let avg_word_length : ℚ :=
    if !words.isEmpty then ((words.map List.length).sum : ℚ) / (words.length : ℚ) else 0
  { total_words := total_words
    unique_words := unique_words
    diversity_ratio := roundTo 2 diversity_ratio
    avg_word_length := roundTo 1 avg_word_length }

/-- Output record of `calculate_engagement_metrics`. -/
structure EngageMetrics where
  total_exchanges : ℕ
  child_responses : ℕ
  questions_asked : ℕ
  avg_response_words : ℚ
deriving DecidableEq

/-- `calculate_engagement_metrics(transcript)`.  `questions_asked` and
`user_texts` both subscript `m["text"]` over the same filtered user turns,
so the single `userTurnTexts` pass raises exactly when the source does;
`len(user_messages)` equals `len(user_texts)`. -/
def calculate_engagement_metrics (transcript : Transcript) : Except PyErr EngageMetrics := do
  let messages ← getMessages transcript
  let user_texts ← userTurnTexts messages
  let questions_asked :=
    user_texts.countP (fun t => (pyStrip t.toList).getLast? == some '?')
  let avg_response_length : ℚ :=
    if !user_texts.isEmpty then
      ((user_texts.map (fun t => (pySplit t).length)).sum : ℚ) / (user_texts.length : ℚ)
    else 0
  pure { total_exchanges := messages.length
         child_responses := user_texts.length
         questions_asked := questions_asked
         avg_response_words := roundTo 1 avg_response_length }

/-- The 17 imagination keywords of `calculate_creativity_indicators`. -/
def imagination_words : List String :=
  ["magic", "magical", "unicorn", "dragon", "fairy", "wizard",
   "castle", "adventure", "imagine", "pretend", "flying", "superhero",
   "princess", "knight", "treasure", "secret", "rainbow"]

/-- The 13 descriptive keywords of `calculate_creativity_indicators`. -/
def descriptive_word_list : List String :=
  ["big", "small", "beautiful", "scary", "funny", "happy", "sad",
   "colorful", "sparkly", "giant", "tiny", "amazing", "wonderful"]

/-- The character keywords of `calculate_creativity_indicators`. -/
def character_words : List String :=
  ["friend", "monster", "animal", "pet", "person"]

/-- The setting keywords of `calculate_creativity_indicators`. -/
def setting_words : List String :=
  ["forest", "castle", "house", "school", "ocean", "sky", "mountain"]

/-- Output record of `calculate_creativity_indicators`. -/
structure CreativityMetrics where
  imagination_keywords : ℕ
  descriptive_words : ℕ
  includes_characters : Bool
  includes_setting : Bool
  creativity_score : ℕ
deriving DecidableEq

/-- `calculate_creativity_indicators(text)`: case-insensitive substring
containment counts over the fixed keyword lists. -/
def calculate_creativity_indicators (text : String) : CreativityMetrics :=
  let text_lower := pyLower text.toList
  let imagination_count := imagination_words.countP (fun w => occursIn w.toList text_lower)
  let descriptive_count := descriptive_word_list.countP (fun w => occursIn w.toList text_lower)
  let has_characters := character_words.any (fun w => occursIn w.toList text_lower)
  let has_setting := setting_words.any (fun w => occursIn w.toList text_lower)
  { imagination_keywords := imagination_count
    descriptive_words := descriptive_count
    includes_characters := has_characters
    includes_setting := has_setting
    creativity_score :=
      min 10 (imagination_count + descriptive_count +
        (if has_characters then 2 else 0) + (if has_setting then 2 else 0)) }

/-- The comprehension phrases of `calculate_comprehension_metrics`.  (The
third phrase contains an apostrophe, written via its code point.) -/
def comprehension_phrases : List String :=
  ["because", "so that", "that" ++ (Char.ofNat 39).toString ++ "s why", "i think", "maybe"]

/-- The inference phrases of `calculate_comprehension_metrics`. -/
def inference_phrases : List String :=
  ["what if", "i wonder", "could be", "might be", "probably"]

/-- Output record of `calculate_comprehension_metrics`. -/
structure ComprehMetrics where
  comprehension_indicators : ℕ
  inference_indicators : ℕ
  relevant_responses : ℕ
  comprehension_score : ℕ
deriving DecidableEq

/-- `calculate_comprehension_metrics(story_transcript)`. -/
def calculate_comprehension_metrics (story_transcript : Transcript) :
    Except PyErr ComprehMetrics := do
  let messages ← getMessages story_transcript
  let user_messages ← userTurnTexts messages
  let user_text := pyLower (String.intercalate " " user_messages).toList
  let comprehension_indicators :=
    comprehension_phrases.countP (fun p => occursIn p.toList user_text)
  let inference_indicators :=
    inference_phrases.countP (fun p => occursIn p.toList user_text)
  let relevant_responses := user_messages.countP (fun m => (pySplit m).length > 2)
  pure { comprehension_indicators := comprehension_indicators
         inference_indicators := inference_indicators
         relevant_responses := relevant_responses
         comprehension_score := min 10 (comprehension_indicators * 2 + inference_indicators * 2) }

/-- Output record of `compute_metrics_with_llm`. -/
structure LLMAnalysis where
  language_complexity : String
  emotional_expression : String
  social_awareness : String
  narrative_skills : String
  overall_assessment : String
deriving DecidableEq

/-- `compute_metrics_with_llm(intro_transcript, story_transcript)`: the
LLM call is unimplemented; the function ignores its arguments and returns
the placeholder record. -/
def compute_metrics_with_llm (_intro_transcript : Option Transcript)
    (_story_transcript : Transcript) : LLMAnalysis :=
  { language_complexity := "age-appropriate"
    emotional_expression := "positive and engaged"
    social_awareness := "developing well"
    narrative_skills := "shows creativity"
    overall_assessment := "The child demonstrates healthy language development with good imagination and engagement." }

/-- Output record of `generate_parent_summary`. -/
structure ParentSummary where
  overall_score : ℚ
  vocabulary_score : ℚ
  engagement_score : ℚ
  creativity_score : ℚ
  comprehension_score : ℚ
  highlights : List String
  encouragement : String
deriving DecidableEq

/-- `generate_parent_summary(vocabulary, engagement, creativity,
comprehension)`. -/
def generate_parent_summary (vocabulary : VocabMetrics) (engagement : EngageMetrics)
    (creativity : CreativityMetrics) (comprehension : ComprehMetrics) : ParentSummary :=
  let vocab_score : ℚ :=
    min 10 (vocabulary.diversity_ratio * 10 + (vocabulary.unique_words : ℚ) / 5)
  let engage_score : ℚ :=
    min 10 ((engagement.child_responses : ℚ) + (engagement.questions_asked : ℚ) * 2)
  let create_score : ℚ := (creativity.creativity_score : ℚ)
  let compreh_score : ℚ := (comprehension.comprehension_score : ℚ)
  let overall_score := (vocab_score + engage_score + create_score + compreh_score) / 4
  { overall_score := roundTo 1 overall_score
    vocabulary_score := roundTo 1 vocab_score
    engagement_score := roundTo 1 engage_score
    creativity_score := roundTo 1 create_score
    comprehension_score := roundTo 1 compreh_score
    highlights :=
      ["Used " ++ toString vocabulary.unique_words ++ " unique words",
       "Asked " ++ toString engagement.questions_asked ++ " questions during the story",
       "Showed " ++ toString creativity.imagination_keywords ++ " imaginative ideas"]
    encouragement := "Great job exploring stories together! Keep reading and imagining." }

/-- The metrics bundle returned by `compute_metrics`. -/
structure MetricsBundle where
  vocabulary : VocabMetrics
  engagement : EngageMetrics
  creativity : CreativityMetrics
  comprehension : ComprehMetrics
  llm_analysis : LLMAnalysis
  summary : ParentSummary
deriving DecidableEq

/-- Models `extract_user_text(intro_transcript) if intro_transcript else ""`
inside `compute_metrics`. -/
def introText (intro_transcript : Option Transcript) : Except PyErr String :=
  match intro_transcript with
  | some t => extract_user_text t
  | none => pure ""

/-- `compute_metrics(intro_transcript, story_transcript)`: the optional
intro transcript is `none` when Python passes a falsy value (the session
store initialises it to None). -/
def compute_metrics (intro_transcript : Option Transcript) (story_transcript : Transcript) :
    Except PyErr MetricsBundle := do
  let intro_text ← introText intro_transcript
  let story_text ← extract_user_text story_transcript
  let combined_text := intro_text ++ " " ++ story_text
  let vocabulary := calculate_vocabulary_metrics combined_text
  let engagement ← calculate_engagement_metrics story_transcript
  let creativity := calculate_creativity_indicators combined_text
  let comprehension ← calculate_comprehension_metrics story_transcript
  let llm_analysis := compute_metrics_with_llm intro_transcript story_transcript
  let summary := generate_parent_summary vocabulary engagement creativity comprehension
  pure { vocabulary := vocabulary
         engagement := engagement
         creativity := creativity
         comprehension := comprehension
         llm_analysis := llm_analysis
         summary := summary }

/-- The child text of Scenario A of the specification. -/
def scenarioAText : String := "I saw a magical unicorn! I think it was friendly."

/-- Scenario A's story transcript: that text as the sole user turn. -/
def scenarioATranscript : Transcript :=
  { messages := .seq [{ role := some "user", text := some scenarioAText }] }

/-- A transcript whose dict has no `messages` key. -/
def absentTranscript : Transcript := { messages := .absent }

/-- A transcript whose `messages` key holds a non-sequence value. -/
def notSeqTranscript : Transcript := { messages := .notSeq }

/-- A user turn whose dict has no `text` key. -/
def missingTextTurn : Turn := { role := some "user", text := none }

/-- A transcript whose only turn is a user turn without `text`. -/
def missingTextTranscript : Transcript := { messages := .seq [missingTextTurn] }

/-- A small well-formed intro transcript used as a concrete witness. -/
def sampleIntroTurns : List Turn :=
  [{ role := some "user", text := some "hi" },
   { role := some "agent", text := some "ok" },
   { role := some "user", text := some "there" }]

/- ---------------------------------------------------------------------
Helper lemmas.
--------------------------------------------------------------------- -/

lemma toNat_ofNat_valid {n : ℕ} (h : n.isValidChar) : (Char.ofNat n).toNat = n := by
  simp [Char.ofNat, h, Char.ofNatAux, Char.toNat, UInt32.toNat]

/-- Lower-casing never turns a character into whitespace or back. -/
lemma pyIsSpace_toLower (c : Char) : pyIsSpace c.toLower = pyIsSpace c := by
  unfold Char.toLower pyIsSpace
  by_cases h : c.toNat ≥ 65 ∧ c.toNat ≤ 90
  · rw [if_pos h]
    have hv : (c.toNat + 32).isValidChar := Or.inl (by omega)
    have hfalse : ∀ m : ℕ, 65 ≤ m →
        (m == 32 || m == 9 || m == 10 || m == 13 || m == 11 || m == 12) = false := by
      intro m hm
      simp only [Bool.or_eq_false_iff, beq_eq_false_iff_ne, ne_eq]
      omega
    rw [toNat_ofNat_valid hv, hfalse _ (by omega), hfalse _ h.1]
  · rw [if_neg h]

/-- Splitting commutes with mapping a whitespace-preserving character
function over the input. -/
lemma pySplitAux_map (f : Char → Char) (hf : ∀ c, pyIsSpace (f c) = pyIsSpace c) :
    ∀ (l acc : List Char),
      pySplitAux (l.map f) (acc.map f) = (pySplitAux l acc).map (List.map f)
  | [], acc => by
      cases acc <;> simp [pySplitAux]
  | c :: cs, acc => by
      by_cases hsp : pyIsSpace c
      · cases acc with
        | nil =>
            simpa [pySplitAux, hf c, hsp] using pySplitAux_map f hf cs []
        | cons a as =>
            have ih := pySplitAux_map f hf cs []
            simp only [List.map_nil] at ih
            simp [pySplitAux, hf c, hsp, ih]
      · simpa [pySplitAux, hf c, hsp] using pySplitAux_map f hf cs (c :: acc)

/-- Lower-casing the text does not change the number of tokens. -/
lemma length_pySplitAux_lower (l : List Char) :
    (pySplitAux (pyLower l) []).length = (pySplitAux l []).length := by
  have h := pySplitAux_map Char.toLower pyIsSpace_toLower l []
  simp only [List.map_nil] at h
  rw [pyLower, h, List.length_map]

/-- Core inequality behind claims C4 and C6. -/
lemma unique_le_total (text : String) : count_unique_words text ≤ count_words text := by
  unfold count_unique_words count_words pySplit
  calc ((((pySplitAux (pyLower text.toList) []).map
            (fun w => w.filter isWordChar)).filter (fun w => !w.isEmpty)).dedup).length
      ≤ (((pySplitAux (pyLower text.toList) []).map
            (fun w => w.filter isWordChar)).filter (fun w => !w.isEmpty)).length :=
        (List.dedup_sublist _).length_le
    _ ≤ ((pySplitAux (pyLower text.toList) []).map (fun w => w.filter isWordChar)).length :=
        List.length_filter_le _ _
    _ = (pySplitAux (pyLower text.toList) []).length := List.length_map _ _
    _ = (pySplitAux text.toList []).length := length_pySplitAux_lower _

/-- Inversion of a successful `Except` bind. -/
lemma bind_ok_iff {α β : Type} {f : Except PyErr α} {g : α → Except PyErr β} {b : β} :
    f >>= g = .ok b ↔ ∃ a, f = .ok a ∧ g a = .ok b := by
  cases f <;> simp [Bind.bind, Except.bind]

lemma roundTo_mono {d : ℕ} {a b : ℚ} (h : a ≤ b) : roundTo d a ≤ roundTo d b := by
  unfold roundTo
  have hp : (0 : ℚ) ≤ 10 ^ d := by positivity
  have hr : ((round (a * 10 ^ d) : ℤ) : ℚ) ≤ ((round (b * 10 ^ d) : ℤ) : ℚ) := by
    have hle : round (a * 10 ^ d) ≤ round (b * 10 ^ d) := by
      rw [round_eq, round_eq]
      exact Int.floor_mono (by nlinarith [mul_le_mul_of_nonneg_right h hp])
    exact_mod_cast hle
  gcongr

lemma roundTo_natCast (d n : ℕ) : roundTo d (n : ℚ) = n := by
  unfold roundTo
  have h : ((n : ℚ) * 10 ^ d) = ((n * 10 ^ d : ℕ) : ℚ) := by push_cast; ring
  rw [h, round_natCast]
  push_cast
  field_simp

lemma roundTo_zero (d : ℕ) : roundTo d (0 : ℚ) = 0 := by
  simpa using roundTo_natCast d 0

lemma roundTo_nonneg {d : ℕ} {a : ℚ} (h : 0 ≤ a) : 0 ≤ roundTo d a :=
  (roundTo_zero d) ▸ roundTo_mono h

lemma roundTo_le_ten {d : ℕ} {a : ℚ} (h : a ≤ 10) : roundTo d a ≤ 10 := by
  have h10 : roundTo d ((10 : ℕ) : ℚ) = ((10 : ℕ) : ℚ) := roundTo_natCast d 10
  calc roundTo d a ≤ roundTo d 10 := roundTo_mono (by exact_mod_cast h)
    _ = 10 := by exact_mod_cast h10

lemma roundTo_le_one {d : ℕ} {a : ℚ} (h : a ≤ 1) : roundTo d a ≤ 1 := by
  have h1 : roundTo d ((1 : ℕ) : ℚ) = ((1 : ℕ) : ℚ) := roundTo_natCast d 1
  calc roundTo d a ≤ roundTo d 1 := roundTo_mono (by exact_mod_cast h)
    _ = 1 := by exact_mod_cast h1

lemma bind_ok {α β : Type} {f : Except PyErr α} {a : α} (hf : f = .ok a)
    (g : α → Except PyErr β) : f >>= g = g a := by
  rw [hf]; rfl

/-- Collecting texts succeeds when every turn in the list has one. -/
lemma collectTexts_ok : ∀ (l : List Turn), (∀ m ∈ l, m.text.isSome) →
    collectTexts l = .ok (l.map (fun m => m.text.getD ""))
  | [], _ => rfl
  | m :: ms, h => by
      obtain ⟨s, hs⟩ := Option.isSome_iff_exists.mp (h m (List.mem_cons_self m ms))
      have ih := collectTexts_ok ms (fun x hx => h x (List.mem_cons_of_mem m hx))
      simp [collectTexts, getText, hs, ih, bind, Except.bind, pure, Except.pure]

/-- The user-text comprehension succeeds when every user turn has text. -/
lemma userTurnTexts_ok (ms : List Turn)
    (h : ∀ m ∈ ms, m.role = some "user" → m.text.isSome) :
    userTurnTexts ms =
      .ok ((ms.filter (fun m => m.role == some "user")).map (fun m => m.text.getD "")) := by
  unfold userTurnTexts
  apply collectTexts_ok
  intro m hm
  have h2 := List.mem_filter.mp hm
  exact h m h2.1 (by simpa using h2.2)

/-- A needle that does not start with a space occurs in `' ' :: l` exactly
when it occurs in `l`. -/
lemma occursIn_space (w : List Char) (hne : w ≠ []) (hh : w.head? ≠ some ' ')
    (l : List Char) : occursIn w (' ' :: l) = occursIn w l := by
  cases w with
  | nil => exact absurd rfl hne
  | cons c cs =>
      have hc : (c == ' ') = false := by
        simp only [List.head?, ne_eq, Option.some.injEq] at hh
        simpa using hh
      simp [occursIn, leadMatch, hc]

lemma lower_cons_space (l : List Char) :
    pyLower (' ' :: l) = ' ' :: pyLower l := by
  simp [pyLower, List.map_cons, show Char.toLower ' ' = ' ' from rfl]

/-- A leading space is discarded by tokenization. -/
lemma tokens_cons_space (l : List Char) :
    pySplitAux (' ' :: l) [] = pySplitAux l [] := by
  simp [pySplitAux, show pyIsSpace ' ' = true from rfl]

lemma countP_occursIn_space (ws : List String) (l : List Char)
    (hws : ∀ w ∈ ws, w.toList ≠ [] ∧ w.toList.head? ≠ some ' ') :
    ws.countP (fun w => occursIn w.toList (' ' :: l)) =
      ws.countP (fun w => occursIn w.toList l) := by
  induction ws with
  | nil => rfl
  | cons w ws ih =>
      have hw := hws w (List.mem_cons_self _ _)
      simp only [List.countP_cons, occursIn_space w.toList hw.1 hw.2 l,
        ih (fun x hx => hws x (List.mem_cons_of_mem _ hx))]

lemma any_occursIn_space (ws : List String) (l : List Char)
    (hws : ∀ w ∈ ws, w.toList ≠ [] ∧ w.toList.head? ≠ some ' ') :
    ws.any (fun w => occursIn w.toList (' ' :: l)) =
      ws.any (fun w => occursIn w.toList l) := by
  induction ws with
  | nil => rfl
  | cons w ws ih =>
      have hw := hws w (List.mem_cons_self _ _)
      simp only [List.any_cons, occursIn_space w.toList hw.1 hw.2 l,
        ih (fun x hx => hws x (List.mem_cons_of_mem _ hx))]

/-- Prefixing the analysed text with one space changes no vocabulary
metric. -/
lemma vocab_space (s : String) :
    calculate_vocabulary_metrics (" " ++ s) = calculate_vocabulary_metrics s := by
  have hl : (" " ++ s).toList = ' ' :: s.toList := by simp [String.toList]
  simp only [calculate_vocabulary_metrics, count_words, count_unique_words, pySplit]
  rw [hl, lower_cons_space, tokens_cons_space, tokens_cons_space]

/-- Prefixing the analysed text with one space changes no creativity
indicator: no keyword starts with a space. -/
lemma creativity_space (s : String) :
    calculate_creativity_indicators (" " ++ s) = calculate_creativity_indicators s := by
  have hl : (" " ++ s).toList = ' ' :: s.toList := by simp [String.toList]
  have himag : ∀ w ∈ imagination_words, w.toList ≠ [] ∧ w.toList.head? ≠ some ' ' := by decide
  have hdesc : ∀ w ∈ descriptive_word_list, w.toList ≠ [] ∧ w.toList.head? ≠ some ' ' := by decide
  have hchar : ∀ w ∈ character_words, w.toList ≠ [] ∧ w.toList.head? ≠ some ' ' := by decide
  have hset : ∀ w ∈ setting_words, w.toList ≠ [] ∧ w.toList.head? ≠ some ' ' := by decide
  simp only [calculate_creativity_indicators]
  rw [hl, lower_cons_space,
    countP_occursIn_space imagination_words _ himag,
    countP_occursIn_space descriptive_word_list _ hdesc,
    any_occursIn_space character_words _ hchar,
    any_occursIn_space setting_words _ hset]

/- ---------------------------------------------------------------------
Claim theorems.
--------------------------------------------------------------------- -/

/-- Claim C1, counterexample: on the Scenario A text the Creativity
Analyzer does not return imagination_keywords = 2 with
includes_characters = false, contrary to the claim ("magic" also matches
inside "magical", and "friend" matches inside "friendly"). -/
theorem claim_C1_cex :
    ¬ ((calculate_creativity_indicators scenarioAText).imagination_keywords = 2 ∧
       (calculate_creativity_indicators scenarioAText).includes_characters = false) := by
  decide

/-- Claim C1, amended: for the Scenario A child text the Creativity
Analyzer returns imagination_keywords = 3 (magic, magical, unicorn),
includes_characters = true (friend inside friendly) and
includes_setting = false, and the Comprehension Analyzer on the transcript
holding that text as the sole user turn counts comprehension_indicators = 1
(the phrase "i think"). -/
theorem claim_C1 :
    (calculate_creativity_indicators scenarioAText).imagination_keywords = 3 ∧
    (calculate_creativity_indicators scenarioAText).includes_characters = true ∧
    (calculate_creativity_indicators scenarioAText).includes_setting = false ∧
    calculate_comprehension_metrics scenarioATranscript =
      .ok { comprehension_indicators := 1, inference_indicators := 0,
            relevant_responses := 1, comprehension_score := 2 } :=
  ⟨by decide, by decide, by decide, by rfl⟩

/-- Claim C2, counterexample: a transcript whose `messages` value is not a
sequence makes the Engagement Analyzer raise TypeError, and a user turn
without a `text` field makes `extract_user_text` raise KeyError — the
malformed input is not recovered by treating it as empty. -/
theorem claim_C2_cex :
    calculate_engagement_metrics notSeqTranscript = .error .typeError ∧
    extract_user_text missingTextTranscript = .error .keyError :=
  ⟨rfl, rfl⟩

/-- Claim C2, amended: only an absent `messages` key is recovered locally
(treated as an empty turn list, all analyzers and compute_metrics return a
normal result); a non-sequence `messages` value raises TypeError and a
user turn lacking `text` raises KeyError, and these errors propagate out
of every analyzer and out of compute_metrics. -/
theorem claim_C2 (t u : Transcript) (m : Turn)
    (ht : t.messages = .absent) (hu : u.messages = .notSeq)
    (hmrole : m.role = some "user") (hmtext : m.text = none) :
    (extract_user_text t = .ok "" ∧
     calculate_engagement_metrics t = .ok ⟨0, 0, 0, 0⟩ ∧
     calculate_comprehension_metrics t = .ok ⟨0, 0, 0, 0⟩ ∧
     (∃ b, compute_metrics none t = .ok b)) ∧
    (extract_user_text u = .error .typeError ∧
     calculate_engagement_metrics u = .error .typeError ∧
     calculate_comprehension_metrics u = .error .typeError ∧
     compute_metrics none u = .error .typeError) ∧
    (extract_user_text { messages := .seq [m] } = .error .keyError ∧
     calculate_engagement_metrics { messages := .seq [m] } = .error .keyError ∧
     calculate_comprehension_metrics { messages := .seq [m] } = .error .keyError ∧
     compute_metrics none { messages := .seq [m] } = .error .keyError) := by
  cases t with | mk tm =>
  cases u with | mk um =>
  cases m with | mk mr mt =>
  subst ht hu hmrole hmtext
  refine ⟨⟨rfl, ?_, rfl, ⟨_, rfl⟩⟩, ⟨rfl, rfl, rfl, rfl⟩, ⟨rfl, rfl, rfl, rfl⟩⟩
  show calculate_engagement_metrics { messages := .absent } = .ok ⟨0, 0, 0, 0⟩
  rw [show (0 : ℚ) = roundTo 1 0 from (roundTo_zero 1).symm]
  rfl

/-- Claim C2, witness: the amended claim instantiated at the concrete
malformed transcripts. -/
theorem claim_C2_witness :
    (absentTranscript.messages = .absent ∧
     notSeqTranscript.messages = .notSeq ∧
     missingTextTurn.role = some "user" ∧
     missingTextTurn.text = none) ∧
    ((extract_user_text absentTranscript = .ok "" ∧
      calculate_engagement_metrics absentTranscript = .ok ⟨0, 0, 0, 0⟩ ∧
      calculate_comprehension_metrics absentTranscript = .ok ⟨0, 0, 0, 0⟩ ∧
      (∃ b, compute_metrics none absentTranscript = .ok b)) ∧
     (extract_user_text notSeqTranscript = .error .typeError ∧
      calculate_engagement_metrics notSeqTranscript = .error .typeError ∧
      calculate_comprehension_metrics notSeqTranscript = .error .typeError ∧
      compute_metrics none notSeqTranscript = .error .typeError) ∧
     (extract_user_text { messages := .seq [missingTextTurn] } = .error .keyError ∧
      calculate_engagement_metrics { messages := .seq [missingTextTurn] } = .error .keyError ∧
      calculate_comprehension_metrics { messages := .seq [missingTextTurn] } = .error .keyError ∧
      compute_metrics none { messages := .seq [missingTextTurn] } = .error .keyError)) :=
  ⟨⟨rfl, rfl, rfl, rfl⟩, claim_C2 absentTranscript notSeqTranscript missingTextTurn rfl rfl rfl rfl⟩

/-- Claim C3: for every quadruple of analyzer outputs, the Summary
Composer rounds to 1 decimal the arithmetic mean of the four component
scores (the vocabulary and engagement scores it computes and the two
pass-through scores) as `overall_score`, and each returned component score
is the corresponding component score rounded to 1 decimal. -/
theorem claim_C3 (v : VocabMetrics) (e : EngageMetrics) (c : CreativityMetrics) (k : ComprehMetrics) :
    (generate_parent_summary v e c k).overall_score =
      roundTo 1 ((min 10 (v.diversity_ratio * 10 + (v.unique_words : ℚ) / 5)
        + min 10 ((e.child_responses : ℚ) + (e.questions_asked : ℚ) * 2)
        + (c.creativity_score : ℚ) + (k.comprehension_score : ℚ)) / 4) ∧
    (generate_parent_summary v e c k).vocabulary_score =
      roundTo 1 (min 10 (v.diversity_ratio * 10 + (v.unique_words : ℚ) / 5)) ∧
    (generate_parent_summary v e c k).engagement_score =
      roundTo 1 (min 10 ((e.child_responses : ℚ) + (e.questions_asked : ℚ) * 2)) ∧
    (generate_parent_summary v e c k).creativity_score = roundTo 1 (c.creativity_score : ℚ) ∧
    (generate_parent_summary v e c k).comprehension_score = roundTo 1 (k.comprehension_score : ℚ) :=
  ⟨rfl, rfl, rfl, rfl, rfl⟩

/-- Claim C4, counterexample: for the text "!!!" the Vocabulary Analyzer
returns diversity_ratio = 0 with total_words = 1 (the only token
normalizes to the empty string and is discarded), so diversity_ratio = 0
is not equivalent to total_words = 0. -/
theorem claim_C4_cex :
    ¬ ((calculate_vocabulary_metrics "!!!").diversity_ratio = 0 ↔
       (calculate_vocabulary_metrics "!!!").total_words = 0) := by
  have h1 : count_words "!!!" = 1 := by decide
  have h2 : count_unique_words "!!!" = 0 := by decide
  have hdr : (calculate_vocabulary_metrics "!!!").diversity_ratio = 0 := by
    show roundTo 2 (if count_words "!!!" > 0 then
      ((count_unique_words "!!!" : ℚ) / (count_words "!!!" : ℚ)) else 0) = 0
    rw [h1, h2]
    norm_num
    exact roundTo_zero 2
  have ht : (calculate_vocabulary_metrics "!!!").total_words = 1 := h1
  simp [hdr, ht]

/-- Claim C4, amended: for every input text the Vocabulary Analyzer
returns diversity_ratio in [0, 1], and total_words = 0 implies
diversity_ratio = 0 (the converse fails when all tokens normalize to
empty, as for punctuation-only text). -/
theorem claim_C4 (text : String) :
    0 ≤ (calculate_vocabulary_metrics text).diversity_ratio ∧
    (calculate_vocabulary_metrics text).diversity_ratio ≤ 1 ∧
    ((calculate_vocabulary_metrics text).total_words = 0 →
      (calculate_vocabulary_metrics text).diversity_ratio = 0) := by
  have hq0 : (0 : ℚ) ≤ (if count_words text > 0 then
      ((count_unique_words text : ℚ) / (count_words text : ℚ)) else 0) := by
    split
    · positivity
    · exact le_refl 0
  have hq1 : (if count_words text > 0 then
      ((count_unique_words text : ℚ) / (count_words text : ℚ)) else 0) ≤ 1 := by
    split
    · rename_i h
      rw [div_le_one (by exact_mod_cast h)]
      exact_mod_cast unique_le_total text
    · norm_num
  refine ⟨roundTo_nonneg hq0, roundTo_le_one hq1, ?_⟩
  intro h0
  have hz : count_words text = 0 := h0
  show roundTo 2 (if count_words text > 0 then
      ((count_unique_words text : ℚ) / (count_words text : ℚ)) else 0) = 0
  rw [if_neg (by omega)]
  exact roundTo_zero 2

/-- Claim C5: for every input text the creativity_score is at most 10, and
every successful Comprehension Analyzer run yields a comprehension_score
of at most 10 (both are clamped by min; both are naturals, hence at least
0). -/
theorem claim_C5 (text : String) (t : Transcript) (d : ComprehMetrics)
    (h : calculate_comprehension_metrics t = .ok d) :
    (calculate_creativity_indicators text).creativity_score ≤ 10 ∧
    d.comprehension_score ≤ 10 := by
  constructor
  · exact Nat.min_le_left _ _
  · unfold calculate_comprehension_metrics at h
    obtain ⟨msgs, hmsgs, h⟩ := bind_ok_iff.mp h
    obtain ⟨texts, htexts, h⟩ := bind_ok_iff.mp h
    simp only [pure, Except.pure, Except.ok.injEq] at h
    rw [← h]
    exact Nat.min_le_left _ _

/-- Claim C5, witness: the bounds instantiated at the Scenario A text and
transcript. -/
theorem claim_C5_witness :
    calculate_comprehension_metrics scenarioATranscript =
      Except.ok { comprehension_indicators := 1, inference_indicators := 0,
                  relevant_responses := 1, comprehension_score := 2 } ∧
    ((calculate_creativity_indicators scenarioAText).creativity_score ≤ 10 ∧
      ({ comprehension_indicators := 1, inference_indicators := 0,
         relevant_responses := 1, comprehension_score := 2 } : ComprehMetrics).comprehension_score ≤ 10) :=
  ⟨by rfl, claim_C5 scenarioAText scenarioATranscript _ (by rfl)⟩

/-- Claim C6: for every input text, the Vocabulary Analyzer returns
unique_words at most total_words. -/
theorem claim_C6 (text : String) :
    (calculate_vocabulary_metrics text).unique_words ≤
      (calculate_vocabulary_metrics text).total_words :=
  unique_le_total text

/-- Claim C7: for every intro transcript whose user turns all carry text,
the story prompt is the fixed template around the newline-joined child
utterances, so it contains every user turn text verbatim, in original
order, with consecutive utterances separated by newlines. -/
theorem claim_C7 (ms : List Turn)
    (h : ∀ m ∈ ms, m.role = some "user" → m.text.isSome) :
    ∃ a b, build_story_prompt { messages := .seq ms } =
      .ok (a ++ String.intercalate "\n"
        ((ms.filter (fun m => m.role == some "user")).map (fun m => m.text.getD "")) ++ b) := by
  refine ⟨storyPromptPre, storyPromptPost, ?_⟩
  unfold build_story_prompt
  have hmsgs : getMessages { messages := Messages.seq ms } = .ok ms := rfl
  rw [hmsgs]
  simp [userTurnTexts_ok ms h, bind, Except.bind, pure, Except.pure]

/-- Claim C7, witness: the round-trip at a concrete three-turn intro
transcript. -/
theorem claim_C7_witness :
    (∀ m ∈ sampleIntroTurns, m.role = some "user" → m.text.isSome) ∧
    ∃ a b, build_story_prompt { messages := .seq sampleIntroTurns } =
      .ok (a ++ String.intercalate "\n"
        ((sampleIntroTurns.filter (fun m => m.role == some "user")).map
          (fun m => m.text.getD "")) ++ b) :=
  ⟨by decide, claim_C7 sampleIntroTurns (by decide)⟩

/-- Claim C8: for every story transcript on which text extraction
succeeds, compute_metrics with no intro transcript succeeds and its
vocabulary and creativity groups equal the analyzers applied to the story
text alone (the leading separator space added by the concatenation is
dropped by tokenization and cannot complete any keyword match). -/
theorem claim_C8 (story : Transcript) (s : String)
    (h : extract_user_text story = .ok s) :
    ∃ b, compute_metrics none story = .ok b ∧
      b.vocabulary = calculate_vocabulary_metrics s ∧
      b.creativity = calculate_creativity_indicators s := by
  have h0 := h
  unfold extract_user_text at h
  obtain ⟨ms, hms, h⟩ := bind_ok_iff.mp h
  obtain ⟨texts, htexts, h⟩ := bind_ok_iff.mp h
  obtain ⟨en, hen⟩ : ∃ en, calculate_engagement_metrics story = .ok en :=
    ⟨_, by unfold calculate_engagement_metrics; rw [bind_ok hms, bind_ok htexts]; rfl⟩
  obtain ⟨co, hco⟩ : ∃ co, calculate_comprehension_metrics story = .ok co :=
    ⟨_, by unfold calculate_comprehension_metrics; rw [bind_ok hms, bind_ok htexts]; rfl⟩
  refine ⟨{ vocabulary := calculate_vocabulary_metrics ("" ++ " " ++ s)
            engagement := en
            creativity := calculate_creativity_indicators ("" ++ " " ++ s)
            comprehension := co
            llm_analysis := compute_metrics_with_llm none story
            summary := generate_parent_summary
              (calculate_vocabulary_metrics ("" ++ " " ++ s)) en
              (calculate_creativity_indicators ("" ++ " " ++ s)) co }, ?_, ?_, ?_⟩
  · unfold compute_metrics
    rw [bind_ok (show introText none = Except.ok "" from rfl), bind_ok h0,
      bind_ok hen, bind_ok hco]
    rfl
  · show calculate_vocabulary_metrics ("" ++ " " ++ s) = calculate_vocabulary_metrics s
    rw [show ("" ++ " " ++ s : String) = " " ++ s by simp, vocab_space]
  · show calculate_creativity_indicators ("" ++ " " ++ s) = calculate_creativity_indicators s
    rw [show ("" ++ " " ++ s : String) = " " ++ s by simp, creativity_space]

/-- Claim C8, witness: the intro-absence transparency at the Scenario A
story transcript. -/
theorem claim_C8_witness :
    extract_user_text scenarioATranscript = .ok scenarioAText ∧
    ∃ b, compute_metrics none scenarioATranscript = .ok b ∧
      b.vocabulary = calculate_vocabulary_metrics scenarioAText ∧
      b.creativity = calculate_creativity_indicators scenarioAText :=
  ⟨rfl, claim_C8 scenarioATranscript scenarioAText rfl⟩

/-- Claim C9: every successful compute_metrics bundle carries the fixed
constant llm_analysis record of five strings, independent of the input
transcripts. -/
theorem claim_C9 (intro : Option Transcript) (story : Transcript) (b : MetricsBundle)
    (h : compute_metrics intro story = .ok b) :
    b.llm_analysis =
      { language_complexity := "age-appropriate"
        emotional_expression := "positive and engaged"
        social_awareness := "developing well"
        narrative_skills := "shows creativity"
        overall_assessment := "The child demonstrates healthy language development with good imagination and engagement." } := by
  unfold compute_metrics at h
  obtain ⟨it, hit, h⟩ := bind_ok_iff.mp h
  obtain ⟨st, hst, h⟩ := bind_ok_iff.mp h
  obtain ⟨en, hen, h⟩ := bind_ok_iff.mp h
  obtain ⟨co, hco, h⟩ := bind_ok_iff.mp h
  simp only [pure, Except.pure, Except.ok.injEq] at h
  rw [← h]
  rfl

/-- Claim C9, witness: the constant llm_analysis at the empty story
transcript. -/
theorem claim_C9_witness :
    (∃ b, compute_metrics none { messages := Messages.seq [] } = Except.ok b ∧
      b.llm_analysis =
        { language_complexity := "age-appropriate"
          emotional_expression := "positive and engaged"
          social_awareness := "developing well"
          narrative_skills := "shows creativity"
          overall_assessment := "The child demonstrates healthy language development with good imagination and engagement." }) := by
  obtain ⟨b, hb⟩ : ∃ b, compute_metrics none { messages := Messages.seq [] } = Except.ok b :=
    ⟨_, rfl⟩
  exact ⟨b, hb, claim_C9 none _ b hb⟩

/-- Claim C10: for every quadruple of analyzer outputs (characterised by a
non-negative diversity ratio and the clamped creativity and comprehension
scores the analyzers always produce), the composed vocabulary_score,
engagement_score and overall_score also lie in [0, 10]. -/
theorem claim_C10 (v : VocabMetrics) (e : EngageMetrics) (c : CreativityMetrics) (k : ComprehMetrics)
    (hdr : 0 ≤ v.diversity_ratio)
    (hc : c.creativity_score ≤ 10) (hk : k.comprehension_score ≤ 10) :
    0 ≤ (generate_parent_summary v e c k).vocabulary_score ∧
    (generate_parent_summary v e c k).vocabulary_score ≤ 10 ∧
    0 ≤ (generate_parent_summary v e c k).engagement_score ∧
    (generate_parent_summary v e c k).engagement_score ≤ 10 ∧
    0 ≤ (generate_parent_summary v e c k).overall_score ∧
    (generate_parent_summary v e c k).overall_score ≤ 10 := by
  have hv0 : (0 : ℚ) ≤ min 10 (v.diversity_ratio * 10 + (v.unique_words : ℚ) / 5) :=
    le_min (by norm_num) (add_nonneg (mul_nonneg hdr (by norm_num)) (by positivity))
  have hv10 : min 10 (v.diversity_ratio * 10 + (v.unique_words : ℚ) / 5) ≤ 10 :=
    min_le_left _ _
  have he0 : (0 : ℚ) ≤ min 10 ((e.child_responses : ℚ) + (e.questions_asked : ℚ) * 2) :=
    le_min (by norm_num) (by positivity)
  have he10 : min 10 ((e.child_responses : ℚ) + (e.questions_asked : ℚ) * 2) ≤ 10 :=
    min_le_left _ _
  have hc0 : (0 : ℚ) ≤ (c.creativity_score : ℚ) := by positivity
  have hc10 : (c.creativity_score : ℚ) ≤ 10 := by exact_mod_cast hc
  have hk0 : (0 : ℚ) ≤ (k.comprehension_score : ℚ) := by positivity
  have hk10 : (k.comprehension_score : ℚ) ≤ 10 := by exact_mod_cast hk
  have ho0 : (0 : ℚ) ≤ (min 10 (v.diversity_ratio * 10 + (v.unique_words : ℚ) / 5)
      + min 10 ((e.child_responses : ℚ) + (e.questions_asked : ℚ) * 2)
      + (c.creativity_score : ℚ) + (k.comprehension_score : ℚ)) / 4 :=
    div_nonneg (by linarith) (by norm_num)
  have ho10 : (min 10 (v.diversity_ratio * 10 + (v.unique_words : ℚ) / 5)
      + min 10 ((e.child_responses : ℚ) + (e.questions_asked : ℚ) * 2)
      + (c.creativity_score : ℚ) + (k.comprehension_score : ℚ)) / 4 ≤ 10 := by
    rw [div_le_iff₀ (by norm_num : (0 : ℚ) < 4)]
    linarith
  exact ⟨roundTo_nonneg hv0, roundTo_le_ten hv10, roundTo_nonneg he0, roundTo_le_ten he10,
    roundTo_nonneg ho0, roundTo_le_ten ho10⟩

/-- Claim C10, witness: the bounds at the all-zero analyzer outputs. -/
theorem claim_C10_witness :
    ((0 : ℚ) ≤ (⟨0, 0, 0, 0⟩ : VocabMetrics).diversity_ratio ∧
     (⟨0, 0, false, false, 0⟩ : CreativityMetrics).creativity_score ≤ 10 ∧
     (⟨0, 0, 0, 0⟩ : ComprehMetrics).comprehension_score ≤ 10) ∧
    (0 ≤ (generate_parent_summary ⟨0, 0, 0, 0⟩ ⟨0, 0, 0, 0⟩ ⟨0, 0, false, false, 0⟩ ⟨0, 0, 0, 0⟩).vocabulary_score ∧
     (generate_parent_summary ⟨0, 0, 0, 0⟩ ⟨0, 0, 0, 0⟩ ⟨0, 0, false, false, 0⟩ ⟨0, 0, 0, 0⟩).vocabulary_score ≤ 10 ∧
     0 ≤ (generate_parent_summary ⟨0, 0, 0, 0⟩ ⟨0, 0, 0, 0⟩ ⟨0, 0, false, false, 0⟩ ⟨0, 0, 0, 0⟩).engagement_score ∧
     (generate_parent_summary ⟨0, 0, 0, 0⟩ ⟨0, 0, 0, 0⟩ ⟨0, 0, false, false, 0⟩ ⟨0, 0, 0, 0⟩).engagement_score ≤ 10 ∧
     0 ≤ (generate_parent_summary ⟨0, 0, 0, 0⟩ ⟨0, 0, 0, 0⟩ ⟨0, 0, false, false, 0⟩ ⟨0, 0, 0, 0⟩).overall_score ∧
     (generate_parent_summary ⟨0, 0, 0, 0⟩ ⟨0, 0, 0, 0⟩ ⟨0, 0, false, false, 0⟩ ⟨0, 0, 0, 0⟩).overall_score ≤ 10) :=
  ⟨⟨le_refl 0, by norm_num, by norm_num⟩,
   claim_C10 ⟨0, 0, 0, 0⟩ ⟨0, 0, 0, 0⟩ ⟨0, 0, false, false, 0⟩ ⟨0, 0, 0, 0⟩
     (le_refl 0) (by norm_num) (by norm_num)⟩

end SoulSmith
